import Mathlib

/-!
Shallow embedding of the backend-selection and result-analysis logic of the
Grover-on-QPU repository (`src/grover/utils.py` and `src/grover/run_qpu.py`).

External SDK objects (backends, job handles, the runtime service) are modelled
as explicit data.  An optional Python attribute guarded by `hasattr` in the
source is an `Option` field here, with `none` meaning the attribute is absent.
Python exceptions are modelled by `Except` with an explicit error type that
distinguishes `ValueError`, generic `Exception` and `ZeroDivisionError`, the
three kinds of exception the embedded source code can raise.
-/

set_option linter.unusedVariables false

namespace Grover

/-- Status snapshot of a remote backend, as returned by `backend.status()`.
`none` in a field models a missing attribute (the `hasattr` checks in the
source). -/
structure BackendStatus where
  operational : Option Bool
  pending_jobs : Option Nat
deriving DecidableEq

/-- A remote backend object as observed by the selection code:
`backend.name`, `backend.num_qubits`, the optional `backend.simulator`
attribute, and the status snapshot. -/
structure Backend where
  name : String
  num_qubits : Nat
  simulator : Option Bool
  status : BackendStatus
deriving DecidableEq

/-- The dictionary appended to `available_qpus` inside `select_best_qpu`:
`{'backend': backend, 'name': backend.name, 'qubits': backend.num_qubits,
'pending_jobs': pending}`. -/
structure QpuInfo where
  backend : Backend
  name : String
  qubits : Nat
  pending_jobs : Nat
deriving DecidableEq

/-- The kinds of Python exception raised by the embedded code:
`ValueError` (credentials and backend selection), plain `Exception`
(connection failure in `get_qiskit_service`), and `ZeroDivisionError`
(the unguarded division in `analyze_results`). -/
inductive PyError where
  | valueError (msg : String)
  | exception (msg : String)
  | zeroDivisionError (msg : String)
deriving DecidableEq

/-- Python truthiness of an optional string: `None` and `""` are falsy
(`if not api_key:` in the source). -/
def pyTruthyStr : Option String → Bool
  | none => false
  | some s => s != ""

/-- `load_ibm_credentials` from `src/grover/utils.py`.  The process
environment (`os.getenv`) is passed in as a function from variable name to
optional value.  Mirrors the source: raise `ValueError` naming the variable
if `IBM_API_KEY` or `QISKIT_IBM_INSTANCE` is absent or empty, else return
the pair as read. -/
def load_ibm_credentials (env : String → Option String) :
    Except PyError (String × String) :=
  let api_key := env "IBM_API_KEY"
  let inst := env "QISKIT_IBM_INSTANCE"
  if !(pyTruthyStr api_key) then
    .error (.valueError
      "IBM_API_KEY não encontrada no .env\nConfigure sua API key em: https://quantum.ibm.com/")
  else if !(pyTruthyStr inst) then
    .error (.valueError
      "QISKIT_IBM_INSTANCE não encontrada no .env\nConfigure seu CRN da instância em: https://quantum.ibm.com/")
  else
    .ok (api_key.getD "", inst.getD "")

/-- An abstract handle to the connected runtime service (its identity is
irrelevant to the embedded logic). -/
structure Service where
  handle : Nat
deriving DecidableEq

/-- `get_qiskit_service` from `src/grover/utils.py`, with the two external
connection attempts (direct connect, and save-credentials-then-reconnect)
passed in as their outcomes.  On double failure it raises a plain
`Exception` wrapping the underlying cause — the connection-error path. -/
def get_qiskit_service (firstAttempt retryAttempt : Except String Service) :
    Except PyError Service :=
  match firstAttempt with
  | .ok s => .ok s
  | .error _ =>
    match retryAttempt with
    | .ok s => .ok s
    | .error save_error =>
      .error (.exception ("Erro ao conectar com IBM Quantum: " ++ save_error ++
        "\nVerifique suas credenciais no .env"))

/-- The hardware test of `list_available_qpus`:
`hasattr(backend, 'simulator') and not backend.simulator`. -/
def isHardware (b : Backend) : Bool :=
  b.simulator == some false

/-- `list_available_qpus` from `src/grover/utils.py`: keep exactly the
backends that have a `simulator` attribute whose value is falsy (console
output elided). -/
def list_available_qpus (backends : List Backend) : List Backend :=
  backends.filter isHardware

/-- The candidate filter of `select_best_qpu`: hardware (`simulator`
attribute present and falsy), at least `min_qubits` qubits, and
operational (`status.operational` defaulting to `True` when the attribute
is missing). -/
def passesFilter (b : Backend) (min_qubits : Nat) : Bool :=
  isHardware b && decide (min_qubits ≤ b.num_qubits) &&
    b.status.operational.getD true

/-- The `QpuInfo` record built for a surviving candidate; a missing
`pending_jobs` attribute defaults to `0`. -/
def toQpuInfo (b : Backend) : QpuInfo :=
  { backend := b
    name := b.name
    qubits := b.num_qubits
    pending_jobs := b.status.pending_jobs.getD 0 }

/-- The `available_qpus` list built by the filtering loop of
`select_best_qpu`. -/
def available_qpus (backends : List Backend) (min_qubits : Nat) :
    List QpuInfo :=
  (backends.filter (fun b => passesFilter b min_qubits)).map toQpuInfo

/-- The preference scan of `select_best_qpu`: for each preferred name in
order, scan `available_qpus` in order and return the first candidate whose
name matches; `none` if no preferred name matches any candidate. -/
def findPreferred (prefs : List String) (qpus : List QpuInfo) :
    Option QpuInfo :=
  match prefs with
  | [] => none
  | p :: rest =>
    match qpus.find? (fun q => q.name == p) with
    | some q => some q
    | none => findPreferred rest qpus

/-- Python's `min(available_qpus, key=lambda x: x['pending_jobs'])` on a
non-empty list `best :: l`: fold left, replacing the current best only on a
strictly smaller key, so the first minimum wins. -/
def minPendingAux (best : QpuInfo) : List QpuInfo → QpuInfo
  | [] => best
  | x :: rest =>
    minPendingAux (if x.pending_jobs < best.pending_jobs then x else best) rest

/-- `select_best_qpu` from `src/grover/utils.py`.  `preferred_qpus = none`
models Python `None`; since both `None` and `[]` are falsy in
`if preferred_qpus:` and `findPreferred [] _ = none`, the fall-through to
the minimum-queue selection is identical to the source for both.  Raises
`ValueError` naming `min_qubits` when no candidate survives the filter. -/
def select_best_qpu (backends : List Backend)
    (preferred_qpus : Option (List String)) (min_qubits : Nat) :
    Except PyError Backend :=
  match available_qpus backends min_qubits with
  | [] =>
    .error (.valueError ("Nenhum QPU operacional encontrado com pelo menos " ++
      toString min_qubits ++ " qubits.\nVerifique seu acesso em: https://quantum.ibm.com/"))
  | q :: rest =>
    match findPreferred (preferred_qpus.getD []) (q :: rest) with
    | some p => .ok p.backend
    | none => .ok (minPendingAux q rest).backend

/-- `sum(counts.values())` in `analyze_results`. -/
def total_shots (counts : List (String × Nat)) : Nat :=
  (counts.map (fun p => p.2)).sum

/-- `counts.get(expected_state, 0)`: the count of the first entry with the
given key, `0` if absent. -/
def countsGet (counts : List (String × Nat)) (k : String) : Nat :=
  match counts.find? (fun p => p.1 == k) with
  | some p => p.2
  | none => 0

/-- `analyze_results` from `src/grover/run_qpu.py`, reduced to its returned
value: `fidelity = counts.get(expected_state, 0) / total_shots` as an exact
rational.  The source performs the division unguarded, so a zero-total
histogram raises Python's `ZeroDivisionError`; that behaviour is modelled
explicitly. -/
def analyze_results (counts : List (String × Nat)) (backend_name : String)
    (expected_state : String) : Except PyError ℚ :=
  let ts := total_shots counts
  let correct_count := countsGet counts expected_state
  if ts = 0 then
    .error (.zeroDivisionError "division by zero")
  else
    .ok ((correct_count : ℚ) / (ts : ℚ))

/-- The interpretation branch of `analyze_results`
(`if fidelity >= 0.80: ... elif fidelity >= 0.60: ... elif fidelity >= 0.40:
... else: ...`), reduced to the qualitative band it selects. -/
def interpret_fidelity (fidelity : ℚ) : String :=
  if fidelity ≥ 0.80 then "excellent"
  else if fidelity ≥ 0.60 then "good"
  else if fidelity ≥ 0.40 then "moderate"
  else "poor"

/-- A remote job handle as `retrieve_job` observes it: the name of its
status (`status.name`), and the outcome of fetching its result, which is
itself fallible on the remote side. -/
structure JobHandle where
  statusName : String
  result : Except String (List (String × Nat))

/-- `retrieve_job` from `src/grover/run_qpu.py`: look the job up by
identifier (`service.job(job_id)`, fallible); if its status is `DONE`,
fetch and return the histogram (`some counts`); otherwise return Python
`None` (`Option.none`) without raising.  Any lookup or fetch failure is
re-raised to the caller (the `except` clause prints and `raise`s). -/
def retrieve_job (service : String → Except String JobHandle)
    (job_id : String) : Except String (Option (List (String × Nat))) :=
  match service job_id with
  | .error e => .error e
  | .ok job =>
    if job.statusName == "DONE" then
      match job.result with
      | .error e => .error e
      | .ok counts => .ok (some counts)
    else
      .ok none

/-! Concrete demonstration data used by the witness theorems. -/

/-- Demo backend: operational 5-qubit hardware device with 9 pending jobs. -/
def bReal2 : Backend :=
  { name := "ibm_real2", num_qubits := 5, simulator := some false,
    status := { operational := some true, pending_jobs := some 9 } }

/-- Demo backend: operational 5-qubit hardware device with 1 pending job. -/
def bReal3 : Backend :=
  { name := "ibm_real3", num_qubits := 5, simulator := some false,
    status := { operational := some true, pending_jobs := some 1 } }

/-- Demo backend: operational 2-qubit hardware device. -/
def bSmall : Backend :=
  { name := "ibm_small", num_qubits := 2, simulator := some false,
    status := { operational := some true, pending_jobs := some 3 } }

/-- Demo backend: hardware device whose status reports neither
`operational` nor `pending_jobs`. -/
def bBare : Backend :=
  { name := "ibm_bare", num_qubits := 5, simulator := some false,
    status := { operational := none, pending_jobs := none } }

/-- Demo backend: operational hardware device with 7 pending jobs. -/
def bBusy : Backend :=
  { name := "ibm_busy", num_qubits := 7, simulator := some false,
    status := { operational := some true, pending_jobs := some 7 } }

/-! Helper lemmas about the selection pipeline. -/

/-- Unfolding of the candidate filter. -/
theorem passesFilter_iff (b : Backend) (mq : Nat) :
    passesFilter b mq = true ↔
      b.simulator = some false ∧ mq ≤ b.num_qubits ∧
        b.status.operational.getD true = true := by
  simp [passesFilter, isHardware, Bool.and_eq_true, and_assoc]

/-- Every element of `available_qpus` is the record of a backend from the
input list that passes the filter. -/
theorem mem_available_qpus {backends : List Backend} {mq : Nat} {q : QpuInfo}
    (h : q ∈ available_qpus backends mq) :
    q.backend ∈ backends ∧ passesFilter q.backend mq = true ∧
      q = toQpuInfo q.backend := by
  simp only [available_qpus, List.mem_map, List.mem_filter] at h
  obtain ⟨b, ⟨hb, hp⟩, rfl⟩ := h
  exact ⟨hb, hp, rfl⟩

/-- A backend from the input list that passes the filter contributes its
record to `available_qpus`. -/
theorem toQpuInfo_mem_available_qpus {backends : List Backend} {mq : Nat}
    {b : Backend} (hb : b ∈ backends) (hp : passesFilter b mq = true) :
    toQpuInfo b ∈ available_qpus backends mq := by
  simp only [available_qpus, List.mem_map]
  exact ⟨b, List.mem_filter.mpr ⟨hb, hp⟩, rfl⟩

/-- A successful preference scan returns one of the candidates. -/
theorem findPreferred_mem {prefs : List String} {qpus : List QpuInfo}
    {q : QpuInfo} (h : findPreferred prefs qpus = some q) : q ∈ qpus := by
  induction prefs with
  | nil => simp [findPreferred] at h
  | cons p rest ih =>
    rw [findPreferred] at h
    cases hf : qpus.find? (fun c => c.name == p) with
    | some r =>
      rw [hf] at h
      cases h
      exact List.mem_of_find?_eq_some hf
    | none =>
      rw [hf] at h
      exact ih h

/-- When no preferred name matches any candidate, the preference scan
fails. -/
theorem findPreferred_eq_none {prefs : List String} {qpus : List QpuInfo}
    (h : ∀ p ∈ prefs, ∀ q ∈ qpus, q.name ≠ p) :
    findPreferred prefs qpus = none := by
  induction prefs with
  | nil => rfl
  | cons p rest ih =>
    have hf : qpus.find? (fun q => q.name == p) = none := by
      rw [List.find?_eq_none]
      intro q hq
      simp [h p (by simp) q hq]
    rw [findPreferred, hf]
    exact ih fun p' hp' q hq => h p' (by simp [hp']) q hq

/-- The preference scan returns the first candidate matching the first
preferred name that matches anything: if the names before index `i` match
no candidate and index `i` matches candidate `q` first, the scan returns
`q`. -/
theorem findPreferred_first {qpus : List QpuInfo} {prefs : List String}
    (i : Nat) (hi : i < prefs.length) {q : QpuInfo}
    (hfind : qpus.find? (fun c => c.name == prefs.get ⟨i, hi⟩) = some q)
    (hearlier : ∀ j (hj : j < prefs.length), j < i →
      qpus.find? (fun c => c.name == prefs.get ⟨j, hj⟩) = none) :
    findPreferred prefs qpus = some q := by
  induction prefs generalizing i with
  | nil => exact absurd hi (Nat.not_lt_zero i)
  | cons p rest ih =>
    cases i with
    | zero =>
      have h0 : qpus.find? (fun c => c.name == p) = some q := hfind
      rw [findPreferred, h0]
    | succ i' =>
      have h0 : qpus.find? (fun c => c.name == p) = none := by
        have := hearlier 0 (Nat.succ_pos _) (Nat.succ_pos _)
        simpa using this
      rw [findPreferred, h0]
      exact ih i' (Nat.lt_of_succ_lt_succ hi) hfind
        fun j hj hji => hearlier (j + 1) (Nat.succ_lt_succ hj) (Nat.succ_lt_succ hji)

/-- The running minimum is the seed or one of the remaining elements. -/
theorem minPendingAux_mem (l : List QpuInfo) : ∀ best : QpuInfo,
    minPendingAux best l = best ∨ minPendingAux best l ∈ l := by
  induction l with
  | nil => intro best; left; rfl
  | cons x rest ih =>
    intro best
    rw [minPendingAux]
    rcases ih (if x.pending_jobs < best.pending_jobs then x else best) with h | h
    · rw [h]
      split
      · right; exact List.mem_cons_self _ _
      · left; rfl
    · right; exact List.mem_cons_of_mem _ h

/-- The running minimum is no larger than the seed and than every
remaining element. -/
theorem minPendingAux_le (l : List QpuInfo) : ∀ best : QpuInfo,
    (minPendingAux best l).pending_jobs ≤ best.pending_jobs ∧
      ∀ x ∈ l, (minPendingAux best l).pending_jobs ≤ x.pending_jobs := by
  induction l with
  | nil => intro best; exact ⟨Nat.le_refl _, by simp⟩
  | cons x rest ih =>
    intro best
    rw [minPendingAux]
    obtain ⟨h1, h2⟩ := ih (if x.pending_jobs < best.pending_jobs then x else best)
    constructor
    · refine Nat.le_trans h1 ?_
      split <;> omega
    · intro y hy
      rcases List.mem_cons.mp hy with rfl | hy'
      · refine Nat.le_trans h1 ?_
        split <;> omega
      · exact h2 y hy'

/-- Branch equation for `select_best_qpu` on an empty candidate list. -/
theorem select_best_qpu_eq_error {backends : List Backend}
    (po : Option (List String)) {mq : Nat}
    (h : available_qpus backends mq = []) :
    select_best_qpu backends po mq =
      .error (.valueError ("Nenhum QPU operacional encontrado com pelo menos " ++
        toString mq ++ " qubits.\nVerifique seu acesso em: https://quantum.ibm.com/")) := by
  unfold select_best_qpu
  rw [h]

/-- Branch equation for `select_best_qpu` on a non-empty candidate list. -/
theorem select_best_qpu_eq_branch {backends : List Backend}
    (po : Option (List String)) {mq : Nat} {q : QpuInfo} {rest : List QpuInfo}
    (h : available_qpus backends mq = q :: rest) :
    select_best_qpu backends po mq =
      (match findPreferred (po.getD []) (q :: rest) with
       | some p => .ok p.backend
       | none => .ok (minPendingAux q rest).backend) := by
  unfold select_best_qpu
  rw [h]

/-- Any backend returned by `select_best_qpu` is the backend of one of the
surviving candidates. -/
theorem select_best_qpu_ok_mem {backends : List Backend}
    {po : Option (List String)} {mq : Nat} {b : Backend}
    (h : select_best_qpu backends po mq = .ok b) :
    ∃ p ∈ available_qpus backends mq, p.backend = b := by
  cases hav : available_qpus backends mq with
  | nil => rw [select_best_qpu_eq_error po hav] at h; cases h
  | cons q rest =>
    rw [select_best_qpu_eq_branch po hav] at h
    cases hf : findPreferred (po.getD []) (q :: rest) with
    | some p =>
      rw [hf] at h
      cases h
      exact ⟨p, findPreferred_mem hf, rfl⟩
    | none =>
      rw [hf] at h
      cases h
      refine ⟨minPendingAux q rest, ?_, rfl⟩
      rcases minPendingAux_mem rest q with he | he
      · rw [he]; exact List.mem_cons_self _ _
      · exact List.mem_cons_of_mem _ he

/-! Claims about `select_best_qpu`. -/

/-- Claim C1: if some name in the preference list (scanned in order) equals
the name of a surviving candidate, `select_best_qpu` returns exactly the
first such matching candidate — the first candidate whose name equals the
first preferred name that matches anything — with no condition on any
candidate's pending-job count. -/
theorem select_best_qpu_prefers (backends : List Backend)
    (prefs : List String) (min_qubits : Nat) (i : Nat)
    (hi : i < prefs.length) (q : QpuInfo)
    (hfind : (available_qpus backends min_qubits).find?
      (fun c => c.name == prefs.get ⟨i, hi⟩) = some q)
    (hearlier : ∀ j (hj : j < prefs.length), j < i →
      (available_qpus backends min_qubits).find?
        (fun c => c.name == prefs.get ⟨j, hj⟩) = none) :
    select_best_qpu backends (some prefs) min_qubits = .ok q.backend := by
  have hfp : findPreferred prefs (available_qpus backends min_qubits) = some q :=
    findPreferred_first i hi hfind hearlier
  have hmem : q ∈ available_qpus backends min_qubits :=
    List.mem_of_find?_eq_some hfind
  cases hav : available_qpus backends min_qubits with
  | nil =>
    rw [hav] at hmem
    exact absurd hmem (List.not_mem_nil q)
  | cons q0 rest =>
    rw [select_best_qpu_eq_branch (some prefs) hav]
    rw [hav] at hfp
    simp [hfp]

/-- Witness for C1 at the spec scenario: preferences
`["ibm_fake1", "ibm_real2"]`, candidates `ibm_real2` (5 qubits, pending 9)
and `ibm_real3` (pending 1); the preferred `ibm_real2` wins despite the
deeper queue. -/
theorem select_best_qpu_prefers_witness :
    select_best_qpu [bReal2, bReal3] (some ["ibm_fake1", "ibm_real2"]) 2 =
      .ok bReal2 :=
  select_best_qpu_prefers [bReal2, bReal3] ["ibm_fake1", "ibm_real2"] 2 1
    (by decide) (toQpuInfo bReal2) (by decide)
    (by
      intro j hj hj1
      have hj0 : j = 0 := by omega
      subst hj0
      show (available_qpus [bReal2, bReal3] 2).find?
        (fun c => c.name == "ibm_fake1") = none
      decide)

/-- Claim C2: whenever `select_best_qpu` returns a backend, that backend
has at least `min_qubits` qubits and does not report itself
non-operational (its `operational` flag, if reported, is `true`),
regardless of the preference list. -/
theorem select_best_qpu_filter_sound (backends : List Backend)
    (preferred_qpus : Option (List String)) (min_qubits : Nat) (b : Backend)
    (h : select_best_qpu backends preferred_qpus min_qubits = .ok b) :
    min_qubits ≤ b.num_qubits ∧
      ∀ v, b.status.operational = some v → v = true := by
  obtain ⟨p, hp, rfl⟩ := select_best_qpu_ok_mem h
  obtain ⟨hmem, hpass, hq⟩ := mem_available_qpus hp
  obtain ⟨hsim, hqubits, hop⟩ := (passesFilter_iff _ _).mp hpass
  refine ⟨hqubits, ?_⟩
  intro v hv
  rw [hv] at hop
  simpa using hop

/-- Witness for C2: the selected backend of a concrete run has enough
qubits and a true operational flag. -/
theorem select_best_qpu_filter_sound_witness :
    2 ≤ bReal3.num_qubits ∧
      ∀ v, bReal3.status.operational = some v → v = true :=
  select_best_qpu_filter_sound [bReal2, bReal3] (some ["ibm_unknown"]) 2
    bReal3 (by rfl)

/-- Claim C3: when the preference list is `None`, empty, or matches no
surviving candidate, `select_best_qpu` returns a candidate whose
pending-job count is the global minimum over all surviving candidates. -/
theorem select_best_qpu_min_queue (backends : List Backend)
    (preferred_qpus : Option (List String)) (min_qubits : Nat) (b : Backend)
    (hpref : ∀ p ∈ preferred_qpus.getD [],
      ∀ q ∈ available_qpus backends min_qubits, q.name ≠ p)
    (h : select_best_qpu backends preferred_qpus min_qubits = .ok b) :
    ∃ q ∈ available_qpus backends min_qubits, q.backend = b ∧
      ∀ r ∈ available_qpus backends min_qubits,
        q.pending_jobs ≤ r.pending_jobs := by
  cases hav : available_qpus backends min_qubits with
  | nil =>
    rw [select_best_qpu_eq_error preferred_qpus hav] at h
    cases h
  | cons q0 rest =>
    have hfp : findPreferred (preferred_qpus.getD []) (q0 :: rest) = none := by
      apply findPreferred_eq_none
      intro p hp q hq
      exact hpref p hp q (hav ▸ hq)
    rw [select_best_qpu_eq_branch preferred_qpus hav, hfp] at h
    cases h
    refine ⟨minPendingAux q0 rest, ?_, rfl, ?_⟩
    · rcases minPendingAux_mem rest q0 with he | he
      · rw [he]; exact List.mem_cons_self _ _
      · exact List.mem_cons_of_mem _ he
    · intro r hr
      obtain ⟨h1, h2⟩ := minPendingAux_le rest q0
      rcases List.mem_cons.mp hr with rfl | hr'
      · exact h1
      · exact h2 r hr'

/-- Witness for C3: with no preferences, the concrete run picks the
candidate with the globally minimal queue. -/
theorem select_best_qpu_min_queue_witness :
    ∃ q ∈ available_qpus [bReal2, bReal3] 2, q.backend = bReal3 ∧
      ∀ r ∈ available_qpus [bReal2, bReal3] 2,
        q.pending_jobs ≤ r.pending_jobs :=
  select_best_qpu_min_queue [bReal2, bReal3] none 2 bReal3 (by simp) (by rfl)

/-- Claim C4: when no backend survives the hardware/min-qubits/operational
filter, `select_best_qpu` raises a `ValueError` whose message names
`min_qubits`; this selection error is distinct from the plain `Exception`
raised on a connection failure by `get_qiskit_service`. -/
theorem select_best_qpu_no_candidate (backends : List Backend)
    (preferred_qpus : Option (List String)) (min_qubits : Nat)
    (h : available_qpus backends min_qubits = []) :
    ∃ msg, select_best_qpu backends preferred_qpus min_qubits =
        .error (.valueError msg) ∧
      (∃ pre post, msg = pre ++ toString min_qubits ++ post) ∧
      ∀ e1 e2 : String, ∃ cmsg,
        get_qiskit_service (.error e1) (.error e2) = .error (.exception cmsg) ∧
          PyError.valueError msg ≠ PyError.exception cmsg := by
  refine ⟨_, select_best_qpu_eq_error preferred_qpus h, ⟨_, _, rfl⟩, ?_⟩
  intro e1 e2
  exact ⟨_, rfl, by simp⟩

/-- Witness for C4 at the spec scenario: `min_qubits = 5` and every
backend has only 2 qubits, so selection fails with a message naming 5. -/
theorem select_best_qpu_no_candidate_witness :
    ∃ msg, select_best_qpu [bSmall] (some ["ibm_small"]) 5 =
        .error (.valueError msg) ∧
      (∃ pre post, msg = pre ++ toString (5 : Nat) ++ post) ∧
      ∀ e1 e2 : String, ∃ cmsg,
        get_qiskit_service (.error e1) (.error e2) = .error (.exception cmsg) ∧
          PyError.valueError msg ≠ PyError.exception cmsg :=
  select_best_qpu_no_candidate [bSmall] (some ["ibm_small"]) 5 (by rfl)

/-- Claim C10: missing-attribute handling in `select_best_qpu` — a backend
without a `simulator` attribute is excluded entirely; a surviving backend
whose status lacks `operational` is treated as operational and can be
selected; one whose status lacks `pending_jobs` gets queue depth 0, so the
minimum-queue selection never returns a backend with a positive effective
queue while such a candidate survives. -/
theorem select_best_qpu_hasattr_defaults (min_qubits : Nat) (b : Backend) :
    (b.simulator = none → passesFilter b min_qubits = false ∧
      ∀ backends : List Backend, b ∉ list_available_qpus backends) ∧
    (b.simulator = some false → min_qubits ≤ b.num_qubits →
      b.status.operational = none →
      select_best_qpu [b] none min_qubits = .ok b) ∧
    (b.status.pending_jobs = none → (toQpuInfo b).pending_jobs = 0) ∧
    (∀ (backends : List Backend) (r : Backend), b ∈ backends →
      passesFilter b min_qubits = true → b.status.pending_jobs = none →
      select_best_qpu backends none min_qubits = .ok r →
      r.status.pending_jobs.getD 0 = 0) := by
  refine ⟨?_, ?_, ?_, ?_⟩
  · intro hsim
    constructor
    · simp [passesFilter, isHardware, hsim]
    · intro backends hmem
      rw [list_available_qpus, List.mem_filter] at hmem
      simp [isHardware, hsim] at hmem
  · intro hsim hq hop
    have hpass : passesFilter b min_qubits = true := by
      simp [passesFilter, isHardware, hsim, hop, hq]
    have hav : available_qpus [b] min_qubits = [toQpuInfo b] := by
      simp [available_qpus, hpass]
    unfold select_best_qpu
    rw [hav]
    rfl
  · intro hpend
    simp [toQpuInfo, hpend]
  · intro backends r hmem hpass hpend hsel
    have hbavail : toQpuInfo b ∈ available_qpus backends min_qubits :=
      toQpuInfo_mem_available_qpus hmem hpass
    cases hav : available_qpus backends min_qubits with
    | nil =>
      rw [hav] at hbavail
      exact absurd hbavail (List.not_mem_nil _)
    | cons q0 rest =>
      have hfp : findPreferred ((none : Option (List String)).getD [])
          (q0 :: rest) = none := rfl
      rw [select_best_qpu_eq_branch none hav, hfp] at hsel
      cases hsel
      have hm : minPendingAux q0 rest ∈ available_qpus backends min_qubits := by
        rw [hav]
        rcases minPendingAux_mem rest q0 with he | he
        · rw [he]; exact List.mem_cons_self _ _
        · exact List.mem_cons_of_mem _ he
      obtain ⟨hmb, hmp, hmeq⟩ := mem_available_qpus hm
      rw [hav] at hbavail
      obtain ⟨h1, h2⟩ := minPendingAux_le rest q0
      have hle : (minPendingAux q0 rest).pending_jobs ≤
          (toQpuInfo b).pending_jobs := by
        rcases List.mem_cons.mp hbavail with he | he
        · rw [he]; exact h1
        · exact h2 _ he
      have hb0 : (toQpuInfo b).pending_jobs = 0 := by
        simp [toQpuInfo, hpend]
      have hzero : (minPendingAux q0 rest).pending_jobs = 0 := by omega
      have hfin : (toQpuInfo ((minPendingAux q0 rest).backend)).pending_jobs = 0 := by
        rw [← hmeq]
        exact hzero
      simpa [toQpuInfo] using hfin

/-- Witness for C10: a backend with neither an `operational` nor a
`pending_jobs` attribute is selected, and the selected backend's effective
queue depth is 0. -/
theorem select_best_qpu_hasattr_defaults_witness :
    select_best_qpu [bBare] none 2 = .ok bBare ∧
      bBare.status.pending_jobs.getD 0 = 0 :=
  ⟨(select_best_qpu_hasattr_defaults 2 bBare).2.1 rfl (by decide) rfl,
   (select_best_qpu_hasattr_defaults 2 bBare).2.2.2 [bBare, bBusy] bBare
     (by simp) (by rfl) rfl (by rfl)⟩

/-! Claims about `analyze_results`. -/

/-- The count of the expected state never exceeds the total shot count. -/
theorem countsGet_le_total_shots (counts : List (String × Nat)) (k : String) :
    countsGet counts k ≤ total_shots counts := by
  unfold countsGet
  cases hf : counts.find? (fun p => p.1 == k) with
  | none => exact Nat.zero_le _
  | some pr =>
    have hm : pr ∈ counts := List.mem_of_find?_eq_some hf
    have hm2 : pr.2 ∈ counts.map (fun p => p.2) :=
      List.mem_map_of_mem _ hm
    exact List.single_le_sum (fun x _ => Nat.zero_le x) _ hm2

/-- Claim C5: for a histogram with positive total shot count,
`analyze_results` returns fidelity `counts.get(expected, 0) / total_shots`,
and this value lies in `[0, 1]`. -/
theorem analyze_results_fidelity (counts : List (String × Nat))
    (backend_name expected_state : String) (h : 0 < total_shots counts) :
    analyze_results counts backend_name expected_state =
      .ok ((countsGet counts expected_state : ℚ) / (total_shots counts : ℚ)) ∧
    (0 : ℚ) ≤ (countsGet counts expected_state : ℚ) / (total_shots counts : ℚ) ∧
    (countsGet counts expected_state : ℚ) / (total_shots counts : ℚ) ≤ 1 := by
  have hne : total_shots counts ≠ 0 := Nat.pos_iff_ne_zero.mp h
  refine ⟨?_, ?_, ?_⟩
  · unfold analyze_results
    simp [hne]
  · exact div_nonneg (Nat.cast_nonneg _) (Nat.cast_nonneg _)
  · rw [div_le_one (by exact_mod_cast h)]
    exact_mod_cast countsGet_le_total_shots counts expected_state

/-- Witness for C5 at the spec histogram (1000 shots). -/
theorem analyze_results_fidelity_witness :
    analyze_results [("11", 820), ("00", 60), ("01", 70), ("10", 50)]
        "ibm_test" "11" =
      .ok ((countsGet [("11", 820), ("00", 60), ("01", 70), ("10", 50)] "11" : ℚ) /
        (total_shots [("11", 820), ("00", 60), ("01", 70), ("10", 50)] : ℚ)) :=
  (analyze_results_fidelity [("11", 820), ("00", 60), ("01", 70), ("10", 50)]
    "ibm_test" "11" (by decide)).1

/-- Counterexample for C6: on a histogram whose counts sum to 0 the source
does not guard the division — `analyze_results` fails with a division
error instead of computing fidelity 0. -/
theorem analyze_results_zero_guard_counterexample :
    analyze_results [("11", 0)] "ibm_test" "11" =
        .error (.zeroDivisionError "division by zero") ∧
      analyze_results [("11", 0)] "ibm_test" "11" ≠ .ok 0 := by
  refine ⟨rfl, ?_⟩
  intro hc
  simp [analyze_results, total_shots, countsGet] at hc

/-- Claim C6 (amended): for every histogram whose counts sum to 0,
`analyze_results` fails with a `ZeroDivisionError`; the division by
`total_shots` is not guarded and no fidelity (in particular not 0) is
returned. -/
theorem analyze_results_zero_total (counts : List (String × Nat))
    (backend_name expected_state : String) (h : total_shots counts = 0) :
    analyze_results counts backend_name expected_state =
      .error (.zeroDivisionError "division by zero") := by
  unfold analyze_results
  simp [h]

/-- Witness for the amended C6 on the empty histogram. -/
theorem analyze_results_zero_total_witness :
    total_shots ([] : List (String × Nat)) = 0 ∧
      analyze_results [] "ibm_test" "11" =
        .error (.zeroDivisionError "division by zero") :=
  ⟨rfl, analyze_results_zero_total [] "ibm_test" "11" rfl⟩

/-- Claim C7: the qualitative interpretation band is "excellent" iff
fidelity ≥ 0.80, "good" iff 0.60 ≤ fidelity < 0.80, "moderate" iff
0.40 ≤ fidelity < 0.60, and "poor" iff fidelity < 0.40; and the spec
histogram (820/60/70/50, expected "11") yields fidelity 0.82 in the
"excellent" band. -/
theorem interpret_fidelity_bands (f : ℚ) :
    (interpret_fidelity f = "excellent" ↔ 0.80 ≤ f) ∧
    (interpret_fidelity f = "good" ↔ 0.60 ≤ f ∧ f < 0.80) ∧
    (interpret_fidelity f = "moderate" ↔ 0.40 ≤ f ∧ f < 0.60) ∧
    (interpret_fidelity f = "poor" ↔ f < 0.40) ∧
    analyze_results [("11", 820), ("00", 60), ("01", 70), ("10", 50)]
        "ibm_test" "11" = .ok 0.82 ∧
    interpret_fidelity 0.82 = "excellent" := by
  refine ⟨?_, ?_, ?_, ?_, ?_, ?_⟩
  · unfold interpret_fidelity
    split_ifs with h1 h2 h3 <;> simp_all
  · unfold interpret_fidelity
    split_ifs with h1 h2 h3 <;> simp_all
  · unfold interpret_fidelity
    split_ifs with h1 h2 h3 <;> simp_all
    all_goals
      first
        | linarith
        | (intro hc; linarith)
  · unfold interpret_fidelity
    split_ifs with h1 h2 h3 <;> simp_all <;> linarith
  · norm_num [analyze_results, total_shots, countsGet]
  · norm_num [interpret_fidelity]

/-! Claim about `load_ibm_credentials`. -/

/-- Claim C8: `load_ibm_credentials` raises a `ValueError` whose message
starts with the name of the missing variable whenever `IBM_API_KEY` or
`QISKIT_IBM_INSTANCE` is absent or empty; when both are present and
non-empty it returns exactly the pair of values as read. -/
theorem load_ibm_credentials_spec (env : String → Option String) :
    (pyTruthyStr (env "IBM_API_KEY") = false →
      ∃ msg, load_ibm_credentials env = .error (.valueError msg) ∧
        ∃ t, msg = "IBM_API_KEY" ++ t) ∧
    (pyTruthyStr (env "IBM_API_KEY") = true →
      pyTruthyStr (env "QISKIT_IBM_INSTANCE") = false →
      ∃ msg, load_ibm_credentials env = .error (.valueError msg) ∧
        ∃ t, msg = "QISKIT_IBM_INSTANCE" ++ t) ∧
    (∀ a i, env "IBM_API_KEY" = some a → a ≠ "" →
      env "QISKIT_IBM_INSTANCE" = some i → i ≠ "" →
      load_ibm_credentials env = .ok (a, i)) := by
  refine ⟨?_, ?_, ?_⟩
  · intro h
    refine
      ⟨"IBM_API_KEY não encontrada no .env\nConfigure sua API key em: https://quantum.ibm.com/",
        ?_,
        " não encontrada no .env\nConfigure sua API key em: https://quantum.ibm.com/",
        by decide⟩
    unfold load_ibm_credentials
    simp [h]
  · intro h1 h2
    refine
      ⟨"QISKIT_IBM_INSTANCE não encontrada no .env\nConfigure seu CRN da instância em: https://quantum.ibm.com/",
        ?_,
        " não encontrada no .env\nConfigure seu CRN da instância em: https://quantum.ibm.com/",
        by decide⟩
    unfold load_ibm_credentials
    simp [h1, h2]
  · intro a i ha hna hi hni
    unfold load_ibm_credentials
    simp [ha, hi, pyTruthyStr, hna, hni]

/-- Witness for C8: with both variables present and non-empty, the exact
pair is returned. -/
theorem load_ibm_credentials_spec_witness :
    load_ibm_credentials (fun k =>
      if k = "IBM_API_KEY" then some "key-123"
      else if k = "QISKIT_IBM_INSTANCE" then some "crn-456" else none) =
      .ok ("key-123", "crn-456") :=
  (load_ibm_credentials_spec (fun k =>
      if k = "IBM_API_KEY" then some "key-123"
      else if k = "QISKIT_IBM_INSTANCE" then some "crn-456" else none)).2.2
    "key-123" "crn-456" (by simp) (by decide) (by simp) (by decide)

/-! Claim about `retrieve_job`. -/

/-- Claim C9: `retrieve_job` queries the job's status; when the lookup
fails the failure is re-raised to the caller; when the status is `DONE`
(and the remote fetch succeeds) the histogram is returned; for any other
status it returns the `None` sentinel without raising. -/
theorem retrieve_job_spec (service : String → Except String JobHandle)
    (job_id : String) :
    (∀ e, service job_id = .error e →
      retrieve_job service job_id = .error e) ∧
    (∀ job counts, service job_id = .ok job → job.statusName = "DONE" →
      job.result = .ok counts →
      retrieve_job service job_id = .ok (some counts)) ∧
    (∀ job, service job_id = .ok job → job.statusName ≠ "DONE" →
      retrieve_job service job_id = .ok none) := by
  refine ⟨?_, ?_, ?_⟩
  · intro e he
    unfold retrieve_job
    rw [he]
  · intro job counts hj hs hr
    unfold retrieve_job
    rw [hj]
    simp [hs, hr]
  · intro job hj hs
    unfold retrieve_job
    rw [hj]
    simp [hs]

/-- Witness for C9: a service holding one finished job yields its
histogram. -/
theorem retrieve_job_spec_witness :
    retrieve_job
      (fun _ => .ok { statusName := "DONE", result := .ok [("11", 820)] })
      "job-1" = .ok (some [("11", 820)]) :=
  (retrieve_job_spec
    (fun _ => .ok { statusName := "DONE", result := .ok [("11", 820)] })
    "job-1").2.1 { statusName := "DONE", result := .ok [("11", 820)] }
    [("11", 820)] rfl rfl rfl

end Grover
